import Mathlib

/-
Verification of the photo_sorter browsing/filing core.

This file gives a shallow embedding of the controller and model layer of the
photo_sorter application (src/controller.py, src/model.py, src/config.py,
src/view/dialogs.py) and proves properties of the embedded code.

Modelling conventions:
- Python strings are Lean Strings; the string operations the source uses
  (lower, endswith, strip, sorting) are re-implemented structurally over the
  underlying character lists so that all definitions evaluate by kernel
  reduction.
- Filesystem effects are passed in explicitly: the folder contents seen by
  list_images are a Folder value, the outcome of shutil.move is an
  Except String Unit parameter, and PIL decoding (create_thumbnail) is an
  oracle of type String -> Option Thumb, where none models the decoder
  raising an exception.
- Python dicts are association lists.  cacheGet models dict.get (which
  returns None both for a missing key and for a stored None), cacheMem
  models the "in" operator (key membership), cacheInsert models item
  assignment.
- Side effects on the view and on the settings file are recorded as an
  explicit Effect list returned next to the new state.
-/

namespace PhotoSorter

/-! ## Character-list string operations used by the Python source -/

/-- Lexicographic comparison of character lists by code point, the order
Python uses to compare strings (and pathlib paths whose directory part is
equal). -/
def strLeAux : List Char → List Char → Bool
  | [], _ => true
  | _ :: _, [] => false
  | a :: as, b :: bs =>
    if a.toNat < b.toNat then true
    else if b.toNat < a.toNat then false
    else strLeAux as bs

/-- String comparison as used by Python sorted on paths. -/
def strLe (a b : String) : Bool := strLeAux a.data b.data

instance strLeIsTotal : IsTotal String (fun a b => strLe a b = true) := by
  constructor
  have key : ∀ as bs : List Char, strLeAux as bs = true ∨ strLeAux bs as = true := by
    intro as
    induction as with
    | nil => intro bs; left; rfl
    | cons a as ih =>
      intro bs
      cases bs with
      | nil => right; rfl
      | cons b bs =>
        simp only [strLeAux]
        rcases Nat.lt_trichotomy a.toNat b.toNat with h | h | h
        · left; simp [h]
        · rcases ih bs with h2 | h2
          · left; simp [h, h2]
          · right; simp [h, h2]
        · right; simp [h, Nat.lt_asymm h]
  exact fun a b => key a.data b.data

instance strLeIsTrans : IsTrans String (fun a b => strLe a b = true) := by
  constructor
  have key : ∀ as bs cs : List Char, strLeAux as bs = true → strLeAux bs cs = true →
      strLeAux as cs = true := by
    intro as
    induction as with
    | nil => intro bs cs h1 h2; rfl
    | cons a as ih =>
      intro bs cs h1 h2
      cases bs with
      | nil => simp [strLeAux] at h1
      | cons b bs =>
        cases cs with
        | nil => simp [strLeAux] at h2
        | cons c cs =>
          simp only [strLeAux] at h1 h2 ⊢
          by_cases hab : a.toNat < b.toNat
          · by_cases hbc : b.toNat < c.toNat
            · simp [Nat.lt_trans hab hbc]
            · simp [hab] at h1
              by_cases hcb : c.toNat < b.toNat
              · simp [hbc, hcb] at h2
              · have : b.toNat = c.toNat :=
                  Nat.le_antisymm (Nat.le_of_not_lt hcb) (Nat.le_of_not_lt hbc)
                simp [this ▸ hab]
          · by_cases hba : b.toNat < a.toNat
            · simp [hab, hba] at h1
            · by_cases hbc : b.toNat < c.toNat
              · have hab' : a.toNat = b.toNat :=
                  Nat.le_antisymm (Nat.le_of_not_lt hba) (Nat.le_of_not_lt hab)
                simp [hab' ▸ hbc]
              · by_cases hcb : c.toNat < b.toNat
                · simp [hbc, hcb] at h2
                · simp only [hab, hba, if_neg, ite_false] at h1
                  simp only [hbc, hcb, if_neg, ite_false] at h2
                  have := ih bs cs h1 h2
                  simp [hab, hba, this]
                  omega
  exact fun a b c => key a.data b.data c.data

/-- Sorting as done by Python sorted: a sorted permutation of the input with
respect to the total order strLe.  Python uses a stable mergesort; since
strLe is a total order the sorted permutation is unique, so insertion sort
(which evaluates by kernel reduction) produces the same list. -/
def pysort (l : List String) : List String :=
  List.insertionSort (fun a b => strLe a b = true) l

/-- Python str.lower, character by character (ASCII, which covers the
extension allowlist the source compares against). -/
def pyLower (s : String) : String := ⟨s.data.map Char.toLower⟩

/-- Python str.endswith for a single suffix. -/
def pyEndsWith (s suffix_ : String) : Bool := suffix_.data.isSuffixOf s.data

/-- Python str.strip: drop whitespace from both ends. -/
def pyStrip (s : String) : String :=
  ⟨((s.data.dropWhile Char.isWhitespace).reverse.dropWhile Char.isWhitespace).reverse⟩

/-- Final component of a slash-separated path, as pathlib Path.name. -/
def pathName (s : String) : String :=
  ⟨s.data.foldl (fun acc c => if c = '/' then [] else acc ++ [c]) []⟩

/-! ## model.py: list_images -/

/-- One directory entry as returned by os.listdir, together with whether the
entry is itself a directory (os.listdir does not distinguish; the source
never asks). -/
structure FsEntry where
  name : String
  isDir : Bool
deriving Repr, DecidableEq

/-- The state of the folder passed to list_images: its path, whether it
exists, whether it is a directory, and its entries. -/
structure Folder where
  path : String
  fsExists : Bool
  isDir : Bool
  entries : List FsEntry
deriving Repr, DecidableEq

/-- The extension allowlist from model.py line 20. -/
def supported : List String :=
  [".jpg", ".jpeg", ".png", ".bmp", ".gif", ".tif", ".tiff", ".webp"]

/-- The filter from model.py line 22: f.lower().endswith(supported). -/
def hasSupportedExt (name : String) : Bool :=
  supported.any (fun e => pyEndsWith (pyLower name) e)

/-- Embedding of model.list_images.  The none input models folder being
None (falsy).  A folder that exists but is not a directory makes os.listdir
raise NotADirectoryError, modelled as the error branch.  Entries are
filtered by name suffix only (os.listdir gives bare names), mapped to full
paths (folder / f) and sorted. -/
def list_images (folder : Option Folder) : Except String (List String) :=
  match folder with
  | none => .ok []
  | some f =>
    if !f.fsExists then .ok []
    else if !f.isDir then .error "NotADirectoryError"
    else .ok (pysort ((f.entries.filter (fun e => hasSupportedExt e.name)).map
        (fun e => f.path ++ "/" ++ e.name)))

/-- Modelled from the spec: the Image Catalog scan contract of section 4.1,
which returns an empty list (never an error) when the path does not exist
or is not a directory, excludes directories, and sorts ascending by full
path.  Stated as a second definition only to compare with list_images. -/
def scan_spec (folder : Option Folder) : Except String (List String) :=
  match folder with
  | none => .ok []
  | some f =>
    if !f.fsExists || !f.isDir then .ok []
    else .ok (pysort ((f.entries.filter (fun e => !e.isDir && hasSupportedExt e.name)).map
        (fun e => f.path ++ "/" ++ e.name)))

instance exceptDecEq {ε α : Type} [DecidableEq ε] [DecidableEq α] :
    DecidableEq (Except ε α) := fun a b =>
  match a, b with
  | .ok x, .ok y =>
    if h : x = y then isTrue (by rw [h]) else isFalse (fun hh => by cases hh; exact h rfl)
  | .error x, .error y =>
    if h : x = y then isTrue (by rw [h]) else isFalse (fun hh => by cases hh; exact h rfl)
  | .ok _, .error _ => isFalse (fun hh => by cases hh)
  | .error _, .ok _ => isFalse (fun hh => by cases hh)

/-- List held by an ok result, empty for an error. -/
def okList (r : Except String (List String)) : List String := r.toOption.getD []

/-! ## model.py: create_thumbnail -/

/-- Scale factor from model.py line 45: min(max_size0 / width, max_size1 / height),
with real division modelled over the rationals. -/
def thumbScale (w h tw th : Nat) : ℚ :=
  min ((tw : ℚ) / (w : ℚ)) ((th : ℚ) / (h : ℚ))

/-- Dimensions of the array returned by model.create_thumbnail for a source
image of size w x h and max_size tw x th (the source default is 800 x 600):
the image is resized to (int(width*scale), int(height*scale)) and returned
directly, with no canvas padding.  int() truncation on these non-negative
values is Int.floor followed by toNat. -/
def create_thumbnail_dims (w h tw th : Nat) : Nat × Nat :=
  ((⌊(w : ℚ) * thumbScale w h tw th⌋).toNat, (⌊(h : ℚ) * thumbScale w h tw th⌋).toNat)

/-! ## Controller state -/

/-- Decoded thumbnail handle; the claims never inspect pixel contents. -/
abbrev Thumb := Nat

/-- The thumbnail cache: a Python dict from image path to thumbnail-or-None,
where a stored none is the failure sentinel written after a decode
exception. -/
abbrev Cache := List (String × Option Thumb)

/-- Python dict.get(k): returns None both when the key is absent and when
the stored value is None. -/
def cacheGet (c : Cache) (p : String) : Option Thumb :=
  match c.find? (fun e => e.1 == p) with
  | some e => e.2
  | none => none

/-- Python "k in d": key membership, which does distinguish a stored None
from an absent key. -/
def cacheMem (c : Cache) (p : String) : Bool :=
  c.any (fun e => e.1 == p)

/-- Python d[k] = v. -/
def cacheInsert (c : Cache) (p : String) (v : Option Thumb) : Cache :=
  (p, v) :: c.filter (fun e => !(e.1 == p))

/-- One category slot of the settings record: name and destination path. -/
structure Category where
  name : String
  path : String
deriving Repr, DecidableEq

/-- The slice of the persisted settings the session reads and writes. -/
structure Config where
  categories : List Category
  last_folder : String
deriving Repr, DecidableEq

/-- Observable side effects of a controller operation, in order. -/
inductive Effect where
  | save_config (cfg : Config)
  | show_error (msg : String)
  | show_image (t : Option Thumb)
  | update_status (msg : String)
  | gen_call (p : String)
  | spawn_warmup
deriving Repr, DecidableEq

/-- The PhotoSorterController fields the claims are about. -/
structure State where
  current_folder : Option String
  images : List String
  current_index : Nat
  thumbnail_cache : Cache
  config : Config
deriving Repr, DecidableEq

/-- Controller state right after PhotoSorterController.__init__: no folder,
empty image list, index 0, empty cache. -/
def initState (cfg : Config) : State :=
  { current_folder := none, images := [], current_index := 0,
    thumbnail_cache := [], config := cfg }

/-- Number of thumbnails to preload, controller.py line 14. -/
def THUMBNAIL_PRELOAD_COUNT : Nat := 15

/-- A thumbnail generator oracle standing for create_thumbnail: some t on
success, none when decoding raises. -/
abbrev Gen := String → Option Thumb

/-- Number of create_thumbnail invocations recorded in an effect list. -/
def genCallCount (effs : List Effect) : Nat :=
  (effs.filter (fun e => match e with | .gen_call _ => true | _ => false)).length

/-- Status line text of controller.show_current line 93 (the file size part
is passed separately to the view and not modelled). -/
def statusMsg (p : String) (idx total : Nat) : String :=
  pathName p ++ " (" ++ toString (idx + 1) ++ "/" ++ toString total ++ ")"

/-- Error text of controller.assign_category line 188. -/
def moveErrorMsg (p e : String) : String :=
  "Error Moving Image: Could not move " ++ pathName p ++ ": " ++ e

/-- Error text of controller.assign_category line 165. -/
def notConfiguredMsg : String :=
  "Category Not Configured: Please configure this category (name and path) before assigning images."

/-- Embedding of controller.show_current (lines 73-93).  The get? none
branch models an uncaught IndexError reading images[current_index], which
cannot occur under the index invariant. -/
def show_current (gen : Gen) (st : State) : State × List Effect :=
  if st.images = [] then
    (st, [.show_image none, .update_status "No images found."])
  else
    match st.images.get? st.current_index with
    | none => (st, [])
    | some p =>
      match cacheGet st.thumbnail_cache p with
      | some t =>
        (st, [.show_image (some t), .update_status (statusMsg p st.current_index st.images.length)])
      | none =>
        ({ st with thumbnail_cache := cacheInsert st.thumbnail_cache p (gen p) },
         [.gen_call p, .show_image (gen p),
          .update_status (statusMsg p st.current_index st.images.length)])

/-- Cache contents after the opportunistic preload inside next_image
(controller.py lines 100-107): if the entry after the new current one is
in range, not yet a cache key, and within the preload window, store its
decode result (None on exception). -/
def next_preload_cache (gen : Gen) (st1 : State) : Cache :=
  match st1.images.get? (st1.current_index + 1) with
  | some q =>
    if !cacheMem st1.thumbnail_cache q
        ∧ st1.current_index + 1 < THUMBNAIL_PRELOAD_COUNT + 10 then
      cacheInsert st1.thumbnail_cache q (gen q)
    else st1.thumbnail_cache
  | none => st1.thumbnail_cache

/-- Generator invocations made by the preload inside next_image. -/
def next_preload_effects (st1 : State) : List Effect :=
  match st1.images.get? (st1.current_index + 1) with
  | some q =>
    if !cacheMem st1.thumbnail_cache q
        ∧ st1.current_index + 1 < THUMBNAIL_PRELOAD_COUNT + 10 then
      [Effect.gen_call q]
    else []
  | none => []

/-- Embedding of controller.next_image (lines 95-108), including the
opportunistic preload of the following thumbnail. -/
def next_image (gen : Gen) (st : State) : State × List Effect :=
  if st.images = [] then (st, [])
  else if st.current_index < st.images.length - 1 then
    let st1 := { st with current_index := st.current_index + 1 }
    let st2 := { st1 with thumbnail_cache := next_preload_cache gen st1 }
    let shown := show_current gen st2
    (shown.1, next_preload_effects st1 ++ shown.2)
  else (st, [])

/-- Embedding of controller.prev_image (lines 110-115). -/
def prev_image (gen : Gen) (st : State) : State × List Effect :=
  if st.images = [] then (st, [])
  else if 0 < st.current_index then
    let st1 := { st with current_index := st.current_index - 1 }
    let shown := show_current gen st1
    (shown.1, shown.2)
  else (st, [])

/-- Embedding of controller.select_folder (lines 51-71).  The folder
argument is what view.ask_for_folder returned, with "" standing for the
falsy cancel result; fs is the folder state list_images will see.  When
list_images raises (error branch) the exception propagates after
current_folder and the config were already updated.  The warm-up thread is
recorded as a spawn_warmup effect; its body is modelled separately by
preload_run. -/
def select_folder (gen : Gen) (st : State) (folder : String) (fs : Option Folder) :
    State × List Effect :=
  if folder = "" then (st, [])
  else
    let cfg1 := { st.config with last_folder := folder }
    match list_images fs with
    | .error _ =>
      ({ st with current_folder := some folder, config := cfg1 }, [.save_config cfg1])
    | .ok imgs =>
      let st1 : State :=
        { current_folder := some folder, config := cfg1,
          images := imgs, current_index := 0, thumbnail_cache := [] }
      let shown := show_current gen st1
      let spawn : List Effect := if 1 < imgs.length then [.spawn_warmup] else []
      (shown.1, .save_config cfg1 :: shown.2 ++ spawn)

/-- One iteration of the preload_thumbnails loop body (controller.py lines
64-69): skip paths already present (dict membership), otherwise store the
decode result, with None stored on exception.  The cache argument is
whatever dict self.thumbnail_cache refers to when the iteration runs. -/
def warmup_write (gen : Gen) (c : Cache) (p : String) : Cache :=
  if cacheMem c p then c else cacheInsert c p (gen p)

/-- The whole preload_thumbnails pass over a captured slice of image paths,
writing through the controller's current thumbnail_cache field. -/
def preload_run (gen : Gen) (c : Cache) (ps : List String) : Cache :=
  ps.foldl (warmup_write gen) c

/-- The try block of controller.assign_category (lines 171-188) once the
guards have passed, for current image p: on move failure report the error
and change nothing, on success remove the entry at current_index, clamp
the index, and either finish the folder (empty list: clear current and
last folder, persist) or display the entry now at the index. -/
def assign_usable_body (gen : Gen) (st : State) (p : String) (mv : Except String Unit) :
    State × List Effect :=
  match mv with
  | .error e => (st, [.show_error (moveErrorMsg p e)])
  | .ok _ =>
    let imgs' := st.images.eraseIdx st.current_index
    if imgs' = [] then
      let cfg' := { st.config with last_folder := "" }
      ({ st with images := imgs', current_folder := none, config := cfg' },
       [.show_image none, .update_status "All images sorted from this folder!",
        .save_config cfg'])
    else
      let idx' := if imgs'.length ≤ st.current_index then imgs'.length - 1
                  else st.current_index
      let st1 := { st with images := imgs', current_index := idx' }
      let shown := show_current gen st1
      (shown.1, shown.2)

/-- Embedding of controller.assign_category (lines 159-188).  idx is an
int; mv is the outcome of move_image.  The two get? none fallbacks model
uncaught IndexError reads that cannot occur when the guards and the index
invariant hold. -/
def assign_category (gen : Gen) (st : State) (idx : Int) (mv : Except String Unit) :
    State × List Effect :=
  if st.images = [] ∨ ¬(0 ≤ idx ∧ idx < (st.config.categories.length : Int)) then (st, [])
  else
    match st.config.categories.get? idx.toNat with
    | none => (st, [])
    | some cat =>
      if cat.name = "" ∨ cat.path = "" then (st, [.show_error notConfiguredMsg])
      else
        match st.images.get? st.current_index with
        | none => (st, [])
        | some p => assign_usable_body gen st p mv

/-- Embedding of controller.reset_categories_and_source (lines 190-201).
Note the source does not clear the thumbnail cache here. -/
def reset_categories_and_source (st : State) : State × List Effect :=
  let cfg' : Config := { categories := [], last_folder := "" }
  ({ current_folder := none, images := [], current_index := 0,
     thumbnail_cache := st.thumbnail_cache, config := cfg' },
   [.save_config cfg', .show_image none, .update_status "Select a source folder"])

/-! ## Category edit flow (controller.edit_category and dialogs.configure_category) -/

/-- The enabled condition _update_ok_state keeps on the Save button
(dialogs.py lines 110-115): both fields non-blank after strip. -/
def edit_ok_enabled (name path : String) : Bool :=
  (pyStrip name != "") && (pyStrip path != "")

/-- The save branch of _handle_category_config_result (controller.py lines
142-149): pad the category list up to the slot if needed, store the new
pair, persist.  str(Path(new_path)) normalisation is modelled as the
identity. -/
def handle_config_save (cfg : Config) (idx : Nat) (name path : String) :
    Config × List Effect :=
  let cats := if cfg.categories.length ≤ idx then
                cfg.categories ++
                  List.replicate (idx + 1 - cfg.categories.length) { name := "", path := "" }
              else cfg.categories
  let cfg' := { cfg with categories := cats.set idx { name := name, path := path } }
  (cfg', [.save_config cfg'])

/-- A click on the Save button of the category dialog with the given field
contents.  DearPyGui fires a button callback only while the item is
enabled, and _update_ok_state (run at dialog creation and on every edit of
either field) keeps Save enabled exactly when both fields are non-blank;
an ignored click leaves the dialog open.  The Bool in the result is
whether the dialog is still open afterwards. -/
def edit_submit_save (cfg : Config) (idx : Nat) (name path : String) :
    Config × List Effect × Bool :=
  if edit_ok_enabled name path then
    let r := handle_config_save cfg idx name path
    (r.1, r.2, false)
  else (cfg, [], true)

/-! ## Reachable controller states (the operations of the claims) -/

/-- One application of a controller operation, with all external inputs
(dialog results, filesystem contents, decoder and move outcomes)
quantified. -/
inductive Step : State → State → Prop where
  | select (gen : Gen) (folder : String) (fs : Option Folder) (st : State) :
      Step st (select_folder gen st folder fs).1
  | next (gen : Gen) (st : State) : Step st (next_image gen st).1
  | prev (gen : Gen) (st : State) : Step st (prev_image gen st).1
  | assign (gen : Gen) (idx : Int) (mv : Except String Unit) (st : State) :
      Step st (assign_category gen st idx mv).1
  | reset (st : State) : Step st (reset_categories_and_source st).1

/-- States reachable from a fresh controller by any sequence of the
operations. -/
inductive Reachable : State → Prop where
  | init (cfg : Config) : Reachable (initState cfg)
  | step {st st' : State} : Reachable st → Step st st' → Reachable st'

/-- The index invariant: the list is empty or the index is in range. -/
def IndexInv (st : State) : Prop :=
  st.images = [] ∨ st.current_index < st.images.length

/-! ## Concrete fixtures used by witnesses and counterexamples -/

/-- Decoder oracle that fails on every path. -/
def noDecode : Gen := fun _ => none

/-- Decoder oracle that succeeds on every path. -/
def okDecode : Gen := fun _ => some 0

/-- A mid-session state: three catalogued images, the middle one current,
one usable category in slot 0. -/
def stSample : State :=
  { current_folder := some "f", images := ["f/a.jpg", "f/b.png", "f/c.jpg"],
    current_index := 1, thumbnail_cache := [],
    config := { categories := [{ name := "cat", path := "d" }], last_folder := "f" } }

/-- A session showing a single undecodable image. -/
def stBroken : State :=
  { current_folder := some "f", images := ["f/broken.jpg"], current_index := 0,
    thumbnail_cache := [], config := { categories := [], last_folder := "f" } }

/-- A session on folder f1 with a warm-up pass pending over its tail. -/
def stF1 : State :=
  { current_folder := some "f1", images := ["f1/a.jpg", "f1/b.jpg"], current_index := 0,
    thumbnail_cache := [("f1/a.jpg", some 0)],
    config := { categories := [], last_folder := "f1" } }

/-- Folder contents for f2, the folder selected while f1 warm-up is in
flight. -/
def folderF2 : Folder :=
  { path := "f2", fsExists := true, isDir := true,
    entries := [{ name := "x.png", isDir := false }] }

/-- An existing path that is a regular file, not a directory. -/
def folderNotDir : Folder :=
  { path := "src", fsExists := true, isDir := false, entries := [] }

/-- A directory containing a subdirectory whose name ends in .jpg. -/
def folderWithSubdir : Folder :=
  { path := "src", fsExists := true, isDir := true,
    entries := [{ name := "sub.jpg", isDir := true }] }

/-- A directory with mixed entries, for the amended-catalog witness. -/
def folderMixed : Folder :=
  { path := "src", fsExists := true, isDir := true,
    entries := [{ name := "B.PNG", isDir := false }, { name := "a.txt", isDir := false },
                { name := "a.jpg", isDir := false }] }

/-! ## Basic lemmas -/

theorem pysort_sorted (l : List String) :
    List.Sorted (fun a b => strLe a b = true) (pysort l) :=
  List.sorted_insertionSort _ l

theorem pysort_perm (l : List String) : (pysort l).Perm l :=
  List.perm_insertionSort _ l

theorem show_current_images (gen : Gen) (st : State) :
    (show_current gen st).1.images = st.images := by
  unfold show_current
  split
  · rfl
  · split
    · rfl
    · split <;> rfl

theorem show_current_index (gen : Gen) (st : State) :
    (show_current gen st).1.current_index = st.current_index := by
  unfold show_current
  split
  · rfl
  · split
    · rfl
    · split <;> rfl

/-- Reduction of assign_category once all guards pass. -/
theorem assign_category_usable (gen : Gen) (st : State) (idx : Int)
    (cat : Category) (p : String) (mv : Except String Unit)
    (h0 : 0 ≤ idx) (hlt : idx < (st.config.categories.length : Int))
    (hcat : st.config.categories.get? idx.toNat = some cat)
    (hname : cat.name ≠ "") (hpath : cat.path ≠ "")
    (hp : st.images.get? st.current_index = some p) :
    assign_category gen st idx mv = assign_usable_body gen st p mv := by
  have hne : st.images ≠ [] := by
    intro h
    rw [h] at hp
    simp at hp
  unfold assign_category
  rw [if_neg (by push_neg; exact ⟨hne, h0, hlt⟩)]
  rw [hcat]
  simp only []
  rw [if_neg (by push_neg; exact ⟨hname, hpath⟩)]
  rw [hp]

/-! ## Invariant preservation -/

theorem select_folder_inv (gen : Gen) (st : State) (folder : String) (fs : Option Folder)
    (h : IndexInv st) : IndexInv (select_folder gen st folder fs).1 := by
  unfold select_folder
  split
  · exact h
  · split
    · exact h
    · rename_i imgs heq
      unfold IndexInv
      rw [show_current_images, show_current_index]
      cases imgs with
      | nil => left; rfl
      | cons a l => right; simp

theorem next_image_inv (gen : Gen) (st : State)
    (h : IndexInv st) : IndexInv (next_image gen st).1 := by
  unfold next_image
  split
  · exact h
  · split
    · rename_i hne hlt
      unfold IndexInv
      rw [show_current_images, show_current_index]
      right
      simp only []
      omega
    · exact h

theorem prev_image_inv (gen : Gen) (st : State)
    (h : IndexInv st) : IndexInv (prev_image gen st).1 := by
  unfold prev_image
  split
  · exact h
  · split
    · rename_i hne hpos
      unfold IndexInv
      rw [show_current_images, show_current_index]
      rcases h with h | h
      · exact absurd h hne
      · right
        simp only []
        omega
    · exact h

theorem assign_usable_body_inv (gen : Gen) (st : State) (p : String) (mv : Except String Unit) :
    IndexInv (assign_usable_body gen st p mv).1 ∨ (assign_usable_body gen st p mv).1 = st := by
  cases mv with
  | error e => right; rfl
  | ok u =>
    left
    dsimp only [assign_usable_body]
    split
    · rename_i he; exact Or.inl he
    · rename_i hne
      unfold IndexInv
      rw [show_current_images, show_current_index]
      right
      dsimp only
      have hlen : (st.images.eraseIdx st.current_index).length ≠ 0 := by
        intro h0
        exact hne (List.eq_nil_of_length_eq_zero h0)
      split <;> omega

theorem assign_category_inv (gen : Gen) (st : State) (idx : Int) (mv : Except String Unit)
    (h : IndexInv st) : IndexInv (assign_category gen st idx mv).1 := by
  unfold assign_category
  split
  · exact h
  · split
    · exact h
    · split
      · exact h
      · split
        · exact h
        · rcases assign_usable_body_inv gen st _ mv with h2 | h2
          · exact h2
          · rw [h2]; exact h

theorem reset_inv (st : State) : IndexInv (reset_categories_and_source st).1 :=
  Or.inl rfl

/-- Every reachable state satisfies the index invariant. -/
theorem reachable_index_inv (st : State) (h : Reachable st) : IndexInv st := by
  induction h with
  | init cfg => exact Or.inl rfl
  | step hr hs ih =>
    cases hs with
    | select gen folder fs _ => exact select_folder_inv _ _ _ _ ih
    | next gen _ => exact next_image_inv _ _ ih
    | prev gen _ => exact prev_image_inv _ _ ih
    | assign gen idx mv _ => exact assign_category_inv _ _ _ _ ih
    | reset _ => exact reset_inv _


/-- After a removal by assign_category with a successful move, the index is
the clamp min(current_index, new length - 1); in every other branch the
state is unchanged and the same equation holds under the invariant. -/
theorem assign_clamp (gen : Gen) (st : State) (idx : Int) (h : IndexInv st) :
    (assign_category gen st idx (Except.ok ())).1.images = [] ∨
    (assign_category gen st idx (Except.ok ())).1.current_index
      = min st.current_index ((assign_category gen st idx (Except.ok ())).1.images.length - 1) := by
  have hst : st.images = [] ∨ st.current_index = min st.current_index (st.images.length - 1) := by
    rcases h with h | h
    · exact Or.inl h
    · right; omega
  unfold assign_category
  split
  · exact hst
  · split
    · exact hst
    · split
      · exact hst
      · split
        · exact hst
        · dsimp only [assign_usable_body]
          split
          · rename_i he; exact Or.inl he
          · rename_i hne
            right
            rw [show_current_images, show_current_index]
            dsimp only
            have hpos := List.length_pos.mpr hne
            split <;> omega

/-! ## The claims -/

/-- C1: for every non-empty image list, if assign_category on a usable slot
succeeds (the move does not raise), the resulting image list is the
previous list with exactly the entry at current_index removed and the
relative order of the remaining entries preserved (take prefix ++ drop of
the successor suffix), the length decreases by exactly one, and afterwards
current_index is within range or the list is empty. -/
theorem assign_success_removes_current (gen : Gen) (st : State) (idx : Int)
    (cat : Category) (p : String)
    (hinv : st.current_index < st.images.length)
    (h0 : 0 ≤ idx) (hlt : idx < (st.config.categories.length : Int))
    (hcat : st.config.categories.get? idx.toNat = some cat)
    (hname : cat.name ≠ "") (hpath : cat.path ≠ "")
    (hp : st.images.get? st.current_index = some p) :
    (assign_category gen st idx (Except.ok ())).1.images
        = st.images.take st.current_index ++ st.images.drop (st.current_index + 1) ∧
    (assign_category gen st idx (Except.ok ())).1.images.length + 1 = st.images.length ∧
    ((assign_category gen st idx (Except.ok ())).1.images = [] ∨
     (assign_category gen st idx (Except.ok ())).1.current_index
        < (assign_category gen st idx (Except.ok ())).1.images.length) := by
  rw [assign_category_usable gen st idx cat p _ h0 hlt hcat hname hpath hp]
  dsimp only [assign_usable_body]
  split
  · rename_i he
    refine ⟨List.eraseIdx_eq_take_drop_succ _ _, ?_, Or.inl he⟩
    rw [List.length_eraseIdx, if_pos hinv]
    omega
  · rename_i hne
    have hpos := List.length_pos.mpr hne
    refine ⟨?_, ?_, Or.inr ?_⟩
    · rw [show_current_images]
      exact List.eraseIdx_eq_take_drop_succ _ _
    · rw [show_current_images]
      dsimp only
      rw [List.length_eraseIdx, if_pos hinv]
      omega
    · rw [show_current_images, show_current_index]
      dsimp only
      split <;> omega

/-- Witness for C1 at a concrete three-image session. -/
theorem assign_success_removes_current_witness :
    (assign_category noDecode stSample 0 (Except.ok ())).1.images
        = stSample.images.take stSample.current_index
            ++ stSample.images.drop (stSample.current_index + 1) ∧
    (assign_category noDecode stSample 0 (Except.ok ())).1.images.length + 1
        = stSample.images.length ∧
    ((assign_category noDecode stSample 0 (Except.ok ())).1.images = [] ∨
     (assign_category noDecode stSample 0 (Except.ok ())).1.current_index
        < (assign_category noDecode stSample 0 (Except.ok ())).1.images.length) :=
  assign_success_removes_current noDecode stSample 0 { name := "cat", path := "d" } "f/b.png"
    (by decide) (by decide) (by decide) (by decide) (by decide) (by decide) (by decide)

/-- C2: if the move inside assign_category raises, the whole controller
state is unchanged (in particular images and current_index) and the only
effect is the move-error dialog whose message carries the file name and
the underlying reason. -/
theorem move_failure_atomic (gen : Gen) (st : State) (idx : Int)
    (cat : Category) (p e : String)
    (h0 : 0 ≤ idx) (hlt : idx < (st.config.categories.length : Int))
    (hcat : st.config.categories.get? idx.toNat = some cat)
    (hname : cat.name ≠ "") (hpath : cat.path ≠ "")
    (hp : st.images.get? st.current_index = some p) :
    assign_category gen st idx (Except.error e)
      = (st, [Effect.show_error
          ("Error Moving Image: Could not move " ++ pathName p ++ ": " ++ e)]) := by
  rw [assign_category_usable gen st idx cat p _ h0 hlt hcat hname hpath hp]
  rfl

/-- Witness for C2: a permission error at a concrete session. -/
theorem move_failure_atomic_witness :
    assign_category noDecode stSample 0 (Except.error "Permission denied")
      = (stSample, [Effect.show_error
          ("Error Moving Image: Could not move " ++ pathName "f/b.png"
            ++ ": " ++ "Permission denied")]) :=
  move_failure_atomic noDecode stSample 0 { name := "cat", path := "d" } "f/b.png"
    "Permission denied" (by decide) (by decide) (by decide) (by decide) (by decide) (by decide)

/-- C3: every state reachable by any sequence of select_folder, next,
previous, assign_category and reset satisfies the index invariant (list
empty or 0 <= current_index < length, never negative since indices are
clamped), and after a removal by a successful assign_category the index
equals min(current_index, len(images) - 1) unless the list became empty. -/
theorem index_invariant_reachable_states :
    (∀ st : State, Reachable st → st.images = [] ∨ st.current_index < st.images.length) ∧
    (∀ (gen : Gen) (st : State) (idx : Int), IndexInv st →
      (assign_category gen st idx (Except.ok ())).1.images = [] ∨
      (assign_category gen st idx (Except.ok ())).1.current_index
        = min st.current_index ((assign_category gen st idx (Except.ok ())).1.images.length - 1)) :=
  ⟨fun st h => reachable_index_inv st h, fun gen st idx h => assign_clamp gen st idx h⟩

/-- Witness for C3 at the initial state and a concrete removal. -/
theorem index_invariant_reachable_states_witness :
    ((initState { categories := [], last_folder := "" }).images = [] ∨
      (initState { categories := [], last_folder := "" }).current_index
        < (initState { categories := [], last_folder := "" }).images.length) ∧
    ((assign_category noDecode stSample 0 (Except.ok ())).1.images = [] ∨
      (assign_category noDecode stSample 0 (Except.ok ())).1.current_index
        = min stSample.current_index
            ((assign_category noDecode stSample 0 (Except.ok ())).1.images.length - 1)) :=
  ⟨index_invariant_reachable_states.1 _ (Reachable.init _),
   index_invariant_reachable_states.2 noDecode stSample 0 (Or.inr (by decide))⟩

/-- C4 counterexample: list_images differs from the spec scan contract on an
existing non-directory path (it raises instead of returning the empty
list) and on a directory containing a subdirectory named sub.jpg (it
includes the subdirectory instead of excluding it). -/
theorem scan_spec_mismatch :
    list_images (some folderNotDir) ≠ scan_spec (some folderNotDir) ∧
    list_images (some folderWithSubdir) ≠ scan_spec (some folderWithSubdir) := by
  decide

/-- C4 (amended): list_images returns the empty list when the folder is
None or does not exist; when the path exists but is not a directory it
raises NotADirectoryError instead of returning the empty list; when it is
a directory it returns, sorted ascending by full path, exactly the entries
(directories included) whose lowercased name ends with a supported
extension, with no recursion. -/
theorem list_images_amended :
    (list_images none = Except.ok []) ∧
    (∀ f : Folder, f.fsExists = false → list_images (some f) = Except.ok []) ∧
    (∀ f : Folder, f.fsExists = true → f.isDir = false →
       list_images (some f) = Except.error "NotADirectoryError") ∧
    (∀ f : Folder, f.fsExists = true → f.isDir = true →
       List.Sorted (fun a b => strLe a b = true) (okList (list_images (some f))) ∧
       (okList (list_images (some f))).Perm
         ((f.entries.filter (fun e => hasSupportedExt e.name)).map
           (fun e => f.path ++ "/" ++ e.name))) := by
  refine ⟨rfl, ?_, ?_, ?_⟩
  · intro f hf
    simp [list_images, hf]
  · intro f hf hd
    simp [list_images, hf, hd]
  · intro f hf hd
    simp only [list_images, hf, hd, Bool.not_true, Bool.false_eq_true, if_false,
      Bool.not_false, if_true, okList, Except.toOption, Option.getD]
    exact ⟨pysort_sorted _, pysort_perm _⟩

/-- Witness for C4 (amended) at three concrete folders. -/
theorem list_images_amended_witness :
    list_images (some { path := "gone", fsExists := false, isDir := false, entries := [] })
        = Except.ok [] ∧
    list_images (some folderNotDir) = Except.error "NotADirectoryError" ∧
    (List.Sorted (fun a b => strLe a b = true) (okList (list_images (some folderMixed))) ∧
     (okList (list_images (some folderMixed))).Perm
       ((folderMixed.entries.filter (fun e => hasSupportedExt e.name)).map
         (fun e => folderMixed.path ++ "/" ++ e.name))) :=
  ⟨list_images_amended.2.1 _ rfl,
   list_images_amended.2.2.1 folderNotDir rfl rfl,
   list_images_amended.2.2.2 folderMixed rfl rfl⟩

/-- C5 (code bug): on an undecodable image the first show_current does
store the failure sentinel in the cache (the key is present, its value is
None), yet because the lookup uses dict.get the second show_current cannot
distinguish the sentinel from a miss and invokes the generator again: two
displays make two generator calls, not at most one. -/
theorem failed_decode_retried_each_display :
    cacheMem (show_current noDecode stBroken).1.thumbnail_cache "f/broken.jpg" = true ∧
    cacheGet (show_current noDecode stBroken).1.thumbnail_cache "f/broken.jpg" = none ∧
    genCallCount (show_current noDecode stBroken).2
      + genCallCount (show_current noDecode (show_current noDecode stBroken).1).2 = 2 := by
  decide

/-- C6 counterexample: a 400 x 600 source with the default 800 x 600 target
yields a 400 x 600 buffer, not an 800 x 600 one: the output dimensions
depend on the source aspect ratio because no canvas padding is applied. -/
theorem thumbnail_dims_not_target :
    create_thumbnail_dims 400 600 800 600 ≠ (800, 600) := by
  have hs : thumbScale 400 600 800 600 = 1 := by
    unfold thumbScale
    norm_num [min_def]
  unfold create_thumbnail_dims
  rw [hs]
  intro hcontra
  have h1 := congrArg Prod.fst hcontra
  norm_num at h1
  omega

/-- C6 (amended): the buffer produced by create_thumbnail is the source
scaled by min(target_w/w, target_h/h) with truncation, so it always fits
within target_size (width at most target_w, height at most target_h) with
aspect ratio preserved up to truncation, but it is not padded or centered
on a canvas and its dimensions in general differ from target_size. -/
theorem thumbnail_dims_fit_within (w h tw th : Nat) (hw : 0 < w) (hh : 0 < h) :
    (create_thumbnail_dims w h tw th).1 ≤ tw ∧ (create_thumbnail_dims w h tw th).2 ≤ th := by
  have hw' : (0:ℚ) < (w:ℚ) := by exact_mod_cast hw
  have hh' : (0:ℚ) < (h:ℚ) := by exact_mod_cast hh
  constructor
  · unfold create_thumbnail_dims
    dsimp only
    rw [Int.toNat_le]
    have h1 : (w : ℚ) * thumbScale w h tw th ≤ (tw : ℚ) := by
      unfold thumbScale
      calc (w:ℚ) * min ((tw:ℚ)/(w:ℚ)) ((th:ℚ)/(h:ℚ))
          ≤ (w:ℚ) * ((tw:ℚ)/(w:ℚ)) :=
            mul_le_mul_of_nonneg_left (min_le_left _ _) (le_of_lt hw')
        _ = (tw:ℚ) := by
            rw [mul_comm]
            exact div_mul_cancel₀ _ (ne_of_gt hw')
    have h2 := Int.floor_mono h1
    rw [Int.floor_natCast] at h2
    exact h2
  · unfold create_thumbnail_dims
    dsimp only
    rw [Int.toNat_le]
    have h1 : (h : ℚ) * thumbScale w h tw th ≤ (th : ℚ) := by
      unfold thumbScale
      calc (h:ℚ) * min ((tw:ℚ)/(w:ℚ)) ((th:ℚ)/(h:ℚ))
          ≤ (h:ℚ) * ((th:ℚ)/(h:ℚ)) :=
            mul_le_mul_of_nonneg_left (min_le_right _ _) (le_of_lt hh')
        _ = (th:ℚ) := by
            rw [mul_comm]
            exact div_mul_cancel₀ _ (ne_of_gt hh')
    have h2 := Int.floor_mono h1
    rw [Int.floor_natCast] at h2
    exact h2

/-- Witness for C6 (amended) at the counterexample's input. -/
theorem thumbnail_dims_fit_within_witness :
    (create_thumbnail_dims 400 600 800 600).1 ≤ 800 ∧
    (create_thumbnail_dims 400 600 800 600).2 ≤ 600 :=
  thumbnail_dims_fit_within 400 600 800 600 (by decide) (by decide)

/-- C7: submitting the category dialog with an empty name or an empty path
is rejected before any persistence write: the configuration is unchanged,
no save_config effect is produced, and the dialog stays open. -/
theorem empty_category_input_rejected (cfg : Config) (idx : Nat) (name path : String)
    (h : name = "" ∨ path = "") :
    edit_submit_save cfg idx name path = (cfg, [], true) := by
  unfold edit_submit_save
  rw [if_neg]
  intro hen
  have hempty : (pyStrip "" != "") = false := by decide
  rcases h with h | h <;> subst h <;> simp [edit_ok_enabled, hempty] at hen

/-- Witness for C7 with an empty name field. -/
theorem empty_category_input_rejected_witness :
    edit_submit_save { categories := [], last_folder := "" } 2 "" "sss"
      = ({ categories := [], last_folder := "" }, [], true) :=
  empty_category_input_rejected { categories := [], last_folder := "" } 2 "" "sss" (Or.inl rfl)

/-- C8 (code bug): in the interleaving where the warm-up pass for folder f1
captured its slice of f1 paths, select_folder for f2 then replaced the
cache, and the pass resumes afterwards, the pass writes through the
controller's current thumbnail_cache field, so an entry keyed by the f1
path becomes present and retrievable from the new cache: stale warm-up
writes are not discarded (there is no generation tag). -/
theorem stale_warmup_write_retrievable :
    cacheMem
      (preload_run okDecode
        (select_folder okDecode stF1 "f2" (some folderF2)).1.thumbnail_cache
        ((stF1.images.drop 1).take (THUMBNAIL_PRELOAD_COUNT - 1)))
      "f1/b.jpg" = true ∧
    cacheGet
      (preload_run okDecode
        (select_folder okDecode stF1 "f2" (some folderF2)).1.thumbnail_cache
        ((stF1.images.drop 1).take (THUMBNAIL_PRELOAD_COUNT - 1)))
      "f1/b.jpg" = some 0 := by
  decide

/-- C9: when the folder picker returns the empty (cancel) result,
select_folder changes nothing at all: same state (folder, images, index,
cache, config) and no effects, hence no settings write and no warm-up. -/
theorem select_folder_cancel_noop (gen : Gen) (st : State) (fs : Option Folder) :
    select_folder gen st "" fs = (st, []) := by
  unfold select_folder
  rw [if_pos rfl]

/-- C10: assign_category with an empty image list, a negative slot index,
or an index at or beyond the category count returns silently: the state is
unchanged and no effect (no error dialog, no file move, no settings write)
is produced. -/
theorem assign_guard_noop (gen : Gen) (st : State) (idx : Int) (mv : Except String Unit)
    (h : st.images = [] ∨ idx < 0 ∨ (st.config.categories.length : Int) ≤ idx) :
    assign_category gen st idx mv = (st, []) := by
  unfold assign_category
  rw [if_pos]
  rcases h with h | h | h
  · exact Or.inl h
  · exact Or.inr (by omega)
  · exact Or.inr (by omega)

/-- Witness for C10 with a slot index past the configured categories. -/
theorem assign_guard_noop_witness :
    assign_category noDecode stSample 5 (Except.ok ()) = (stSample, []) :=
  assign_guard_noop noDecode stSample 5 (Except.ok ()) (Or.inr (Or.inr (by decide)))

end PhotoSorter
